import Mathlib

/-!
Verification of the event-normalization and correlation engine of the
vision-hack backend (`src/backend/app.py`) against its natural-language
specification.

Shallow embedding conventions:
* Python floats (unix timestamps, confidence scores) are modelled as `ℚ`,
  with `round(x, 2)` modelled as rounding to hundredths.
* Python dicts produced by `map_to_canonical` are modelled as the structure
  `CEvent`; incident dicts as the structure `Incident` (a union of the fields
  used by correlated and single-domain incidents; fields a given kind of
  incident does not carry default to `""`/`true` and are never read for it).
* A payload field that may be absent is an `Option`; `dict.get(k, d)` becomes
  `Option.getD`.  A payload carrying an explicit `null` value is not
  distinguished from an absent key.
* `time.time()` is passed in explicitly as the parameter `wnow`; the several
  calls inside one correlation pass are identified with each other.
* Python `set(...)` iteration is modelled as first-occurrence order
  (`dedupFirst`); counts and membership, which is all the claims depend on,
  do not depend on that choice.
* `int(t)` on the nonnegative times that occur here equals `⌊t⌋`.
-/

namespace VisionHack

/-- Canonical event: the dict produced by `map_to_canonical` in
`src/backend/app.py`.  `node_id` and `alarm_type` are `Option` because the
VendorA/B/C mappings can put Python `None` there. -/
structure CEvent where
  timestamp : ℚ
  vendor : String
  domain : String
  node_id : Option String
  alarm_type : Option String
  severity : String
  metrics : List (String × ℚ)
deriving Repr, DecidableEq

/-- Incident dict.  Correlated incidents (built at app.py:205-214) use
`node_id` as their group key and leave `vendor`/`domain` at `""`;
single-domain incidents (app.py:517-529) fill every field. -/
structure Incident where
  incident_id : String
  vendor : String := ""
  domain : String := ""
  node_id : Option String
  is_correlated : Bool := true
  probable_root_cause : String
  supporting_events : List CEvent
  confidence : ℚ
  explanation : String
  timestamp : ℚ
  is_critical : Bool
deriving Repr, DecidableEq

/-- The three module-level mutable collections of `backend/app.py`. -/
structure SysState where
  normalized_events : List CEvent
  incidents : List Incident
  single_domain_incidents : List Incident
deriving Repr, DecidableEq

/-- `CORRELATION_WINDOW_SECONDS` (default 30, app.py:20). -/
def CORRELATION_WINDOW_SECONDS : ℚ := 30

/-- `CONFIDENCE_BASE` (app.py:21). -/
def CONFIDENCE_BASE : ℚ := 7/10

/-- Python `str.lower()` (ASCII, which covers every severity string the
system uses). -/
def pyLower (s : String) : String := s.map Char.toLower

/-- Python f-string rendering of a str-or-None value (`None` prints as
`"None"`). -/
def pyStrOpt : Option String → String
  | none => "None"
  | some s => s

/-- Python `a or b` on str-or-None values: `a` unless it is falsy
(`None` or `""`). -/
def pyOrStr : Option String → Option String → Option String
  | none, b => b
  | some s, b => if s = "" then b else some s

/-- Python `round(x, 2)`: round to hundredths.  (Ties, which arise at exact
multiples of 1/200 only, are rounded half-up here; no value in this
development hits a tie.) -/
def round2 (x : ℚ) : ℚ := ((round (x * 100) : ℤ) : ℚ) / 100

/-- Vendor payload: the untyped key-value structure POSTed to `/normalize`.
One `Option` field per key the mapper reads. -/
structure Payload where
  vendor : Option String := none
  ts : Option ℚ := none
  time : Option ℚ := none
  cell : Option String := none
  node : Option String := none
  core_id : Option String := none
  link : Option String := none
  desc : Option String := none
  alarm : Option String := none
  type : Option String := none
  severity : Option String := none
  level : Option String := none
  domain : Option String := none
  node_id : Option String := none
  alarm_type : Option String := none
  metrics : Option (List (String × ℚ)) := none
deriving Repr, DecidableEq

/-- `map_to_canonical` (app.py:23-65).  `wnow` stands for `time.time()`. -/
def map_to_canonical (wnow : ℚ) (p : Payload) : CEvent :=
  let v := p.vendor.getD "unknown"
  if v = "VendorA" then
    { timestamp := p.ts.getD wnow
      vendor := v
      domain := "RAN"
      node_id := pyOrStr p.cell p.node
      alarm_type := p.desc
      severity := p.severity.getD "major"
      metrics := p.metrics.getD [] }
  else if v = "VendorB" then
    { timestamp := p.time.getD wnow
      vendor := v
      domain := "CORE"
      node_id := p.core_id
      alarm_type := p.alarm
      severity := p.level.getD "minor"
      metrics := p.metrics.getD [] }
  else if v = "VendorC" then
    { timestamp := p.ts.getD wnow
      vendor := v
      domain := "TRANSPORT"
      node_id := pyOrStr p.link p.node
      alarm_type := p.type
      severity := p.severity.getD "minor"
      metrics := p.metrics.getD [] }
  else
    { timestamp := p.ts.getD wnow
      vendor := v
      domain := p.domain.getD "UNKNOWN"
      node_id := some (p.node_id.getD "unknown")
      alarm_type := some (p.alarm_type.getD "unknown")
      severity := p.severity.getD "minor"
      metrics := p.metrics.getD [] }

/-! ## Correlation engine -/

/-- The `while ... pop(0)` window-eviction loop (app.py:92-93): pop events
from the front while the front is older than the cutoff, stopping at the
first event that is not. -/
def evictWindow (cutoff : ℚ) : List CEvent → List CEvent
  | [] => []
  | e :: rest => if e.timestamp < cutoff then evictWindow cutoff rest else e :: rest

/-- Incident-store eviction (app.py:97-98): keep incidents with
`timestamp > cutoff`. -/
def evictIncidents (cutoff : ℚ) : List Incident → List Incident
  | [] => []
  | i :: rest =>
    if i.timestamp > cutoff then i :: evictIncidents cutoff rest
    else evictIncidents cutoff rest

/-- One step of a stable insertion sort by timestamp descending: place `x`
before the first strictly older element. -/
def insertDesc (x : Incident) : List Incident → List Incident
  | [] => [x]
  | y :: ys => if y.timestamp < x.timestamp then x :: y :: ys else y :: insertDesc x ys

/-- `list.sort(key=timestamp, reverse=True)` (app.py:102,106): stable sort
by timestamp descending. -/
def sortByTsDesc (l : List Incident) : List Incident :=
  l.foldl (fun acc x => insertDesc x acc) []

/-- Retention cap (app.py:101-107): if the store is over `cap`, sort by
timestamp descending and keep the first `cap`. -/
def capIncidents (cap : ℕ) (l : List Incident) : List Incident :=
  if cap < l.length then (sortByTsDesc l).take cap else l

/-- Incident-store maintenance run at the start of every pass
(app.py:96-107): evict entries older than `2 × CORRELATION_WINDOW_SECONDS`,
then apply the retention cap. -/
def incidentsMaintain (wnow : ℚ) (cap : ℕ) (l : List Incident) : List Incident :=
  capIncidents cap (evictIncidents (wnow - 2 * CORRELATION_WINDOW_SECONDS) l)

/-- `dict.setdefault(k, []).append(e)`: append `e` to the entry of `k`,
creating it at the end on first use (Python dict insertion order). -/
def multiInsert {κ : Type} [DecidableEq κ] (k : κ) (e : CEvent) :
    List (κ × List CEvent) → List (κ × List CEvent)
  | [] => [(k, [e])]
  | (a, vs) :: t =>
    if a = k then (a, vs ++ [e]) :: t else (a, vs) :: multiInsert k e t

/-- `dict[k] = v`: replace the value at `k` in place, or append a new entry. -/
def upsert {α : Type} (k : String) (v : α) :
    List (String × α) → List (String × α)
  | [] => [(k, v)]
  | (a, b) :: t => if a = k then (a, v) :: t else (a, b) :: upsert k v t

/-- `set(...)` materialised as a list in first-occurrence order; the code
only uses its length and membership. -/
def dedupFirst (l : List String) : List String :=
  l.foldl (fun acc d => if d ∈ acc then acc else acc ++ [d]) []

/-- Python `max(x :: xs, key=timestamp)`: the first event with maximal
timestamp. -/
def mostRecent1 (e : CEvent) (es : List CEvent) : CEvent :=
  es.foldl (fun b x => if b.timestamp < x.timestamp then x else b) e

/-- `max` of a nonempty list of rationals (`0` as an unused default for `[]`,
which the guards rule out). -/
def listMax : List ℚ → ℚ
  | [] => 0
  | x :: xs => xs.foldl max x

/-- `min` of a nonempty list of rationals. -/
def listMin : List ℚ → ℚ
  | [] => 0
  | x :: xs => xs.foldl min x

/-- `[e for e in evs if e.domain == d]` (app.py:140). -/
def filterDomain (d : String) : List CEvent → List CEvent
  | [] => []
  | e :: rest =>
    if e.domain = d then e :: filterDomain d rest else filterDomain d rest

/-- Grouping by `node_id` (app.py:114-118): events whose `node_id` is not
the string `"unknown"` (a `None` node id also passes this check, exactly as
in Python). -/
def nodeGrouped (window : List CEvent) : List (Option String × List CEvent) :=
  window.foldl
    (fun acc e =>
      if e.node_id ≠ some "unknown" then multiInsert e.node_id e acc else acc) []

/-- Grouping by domain (app.py:121-124). -/
def domainsGrouped (window : List CEvent) : List (String × List CEvent) :=
  window.foldl (fun acc e => multiInsert e.domain e acc) []

/-- Representatives of a multi-domain node group (app.py:139-144): for each
distinct domain, the most recent event of that domain. -/
def nodeReps (evs : List CEvent) : List CEvent :=
  (dedupFirst (evs.map (·.domain))).foldl
    (fun acc d =>
      match filterDomain d evs with
      | [] => acc
      | x :: xs => acc ++ [mostRecent1 x xs]) []

/-- Representatives of the global cross-domain group (app.py:156-160): the
most recent event of every domain bucket. -/
def crossReps (dg : List (String × List CEvent)) : List CEvent :=
  dg.foldl
    (fun acc p =>
      match p.2 with
      | [] => acc
      | x :: xs => acc ++ [mostRecent1 x xs]) []

/-- The `grouped` dict of a pass (app.py:129-160): one entry per node whose
events span ≥ 2 distinct domains, keyed `"node-" ++ node_id`, plus — when
the whole window spans ≥ 2 domains — one cross-domain entry keyed
`"cross-domain-" ++ (int(now) mod 100)`. -/
def groupedOf (wnow : ℚ) (window : List CEvent) : List (String × List CEvent) :=
  let g0 := (nodeGrouped window).foldl
    (fun acc p =>
      if 2 ≤ (dedupFirst (p.2.map (·.domain))).length then
        upsert ("node-" ++ pyStrOpt p.1) (nodeReps p.2) acc
      else acc) []
  let dg := domainsGrouped window
  if 2 ≤ dg.length then
    upsert ("cross-domain-" ++ toString (⌊wnow⌋ % 100)) (crossReps dg) g0
  else g0

/-! ## Incident synthesis and scoring (app.py:162-220) -/

/-- `severity_factor` (app.py:175): mean over the group of
`1.2 if severity == "major" else 0.8`. -/
def severityFactor (events : List CEvent) : ℚ :=
  ((events.map (fun e => if e.severity = "major" then (6:ℚ)/5 else 4/5)).sum) /
    (events.length : ℚ)

/-- `temporal_proximity` (app.py:176-177). -/
def temporalProximity (events : List CEvent) : ℚ :=
  1 - (listMax (events.map (·.timestamp)) - listMin (events.map (·.timestamp))) /
    CORRELATION_WINDOW_SECONDS

/-- `has_critical` (app.py:188): some event's severity lowercases to
`"critical"`. -/
def hasCritical (events : List CEvent) : Prop :=
  ∃ e ∈ events, pyLower e.severity = "critical"

instance (events : List CEvent) : Decidable (hasCritical events) := by
  unfold hasCritical; infer_instance

/-- The raw confidence sum before capping (app.py:191-196). -/
def rawScore (events : List CEvent) : ℚ :=
  CONFIDENCE_BASE + (1/10) * (events.length : ℚ) +
    (5/100) * ((dedupFirst (events.map (·.domain))).length : ℚ) +
    (1/10) * severityFactor events + (1/10) * temporalProximity events +
    (if hasCritical events then 3/10 else 0)

/-- The stored confidence (app.py:191-196 and 210):
`round(min(min(0.99, raw), 0.99), 2)`. -/
def confidenceOf (events : List CEvent) : ℚ :=
  round2 (min (min (99/100) (rawScore events)) (99/100))

/-- Root-cause selection (app.py:180-185). -/
def rootCauseOf (domains : List String) : String :=
  if "TRANSPORT" ∈ domains ∧ ("RAN" ∈ domains ∨ "CORE" ∈ domains) then
    "Cross-domain congestion in transport layer"
  else if "RAN" ∈ domains ∧ "CORE" ∈ domains then
    "End-to-end connectivity issue"
  else "Domain-specific degradation"

/-- Synthesis of one correlated incident from a `(key, events)` group
(app.py:163-214): `none` when the `≥ 2 events ∧ ≥ 2 domains` guard fails. -/
def synthIncident (wnow : ℚ) (key : String) (events : List CEvent) :
    Option Incident :=
  let domains := dedupFirst (events.map (·.domain))
  if 2 ≤ events.length ∧ 2 ≤ domains.length then
    let rc := rootCauseOf domains
    some
      { incident_id := "INC-" ++ key ++ "-" ++ toString ⌊wnow⌋
        node_id := some key
        is_correlated := true
        probable_root_cause := if hasCritical events then "CRITICAL: " ++ rc else rc
        supporting_events := events
        confidence := confidenceOf events
        explanation :=
          (if hasCritical events then "CRITICAL ALERT: " else "") ++
            toString events.length ++ " correlated events across domains " ++
            toString domains
        timestamp := wnow
        is_critical := decide (hasCritical events) }
  else none

/-- Removal of stored correlated incidents sharing the group key
(app.py:218). -/
def removeKey (key : String) : List Incident → List Incident
  | [] => []
  | i :: rest =>
    if i.node_id ≠ some key then i :: removeKey key rest else removeKey key rest

/-- One iteration of the synthesis loop (app.py:163-220): synthesize the
group and, if the guard passes, replace any stored incident with the same
key. -/
def insertCorrelated (wnow : ℚ) (st : List Incident) (p : String × List CEvent) :
    List Incident :=
  match synthIncident wnow p.1 p.2 with
  | none => st
  | some inc => removeKey p.1 st ++ [inc]

/-- The correlated store across one pass: maintenance (app.py:96-103)
followed by the synthesis loop's upserts. -/
def corrStep (wnow : ℚ) (news : List (String × List CEvent))
    (store : List Incident) : List Incident :=
  news.foldl (insertCorrelated wnow) (incidentsMaintain wnow 50 store)

/-! ## Single-domain incidents (app.py:476-532) -/

/-- The dedup test (app.py:492-495): same vendor, same node id, stored
timestamp within 60 seconds of the event's. -/
def sdiMatch (e : CEvent) (inc : Incident) : Prop :=
  inc.vendor = e.vendor ∧ inc.node_id = e.node_id ∧
    inc.timestamp > e.timestamp - 60

instance (e : CEvent) (inc : Incident) : Decidable (sdiMatch e inc) := by
  unfold sdiMatch; infer_instance

/-- In-place update of a matching incident (app.py:496-500): replace
`supporting_events` with `[event]`, refresh `timestamp`, regenerate
`explanation`; every other field is untouched. -/
def updateIncident (e : CEvent) (inc : Incident) : Incident :=
  { inc with
    supporting_events := [e]
    timestamp := e.timestamp
    explanation := "Updated " ++ e.domain ++ " issue on " ++ pyStrOpt e.node_id }

/-- A freshly created single-domain incident (app.py:502-529). -/
def newSingleDomainIncident (e : CEvent) : Incident :=
  let crit := pyLower e.severity = "critical"
  { incident_id :=
      "INC-" ++ e.vendor ++ "-" ++ pyStrOpt e.node_id ++ "-" ++
        toString ⌊e.timestamp⌋
    vendor := e.vendor
    domain := e.domain
    node_id := e.node_id
    is_correlated := false
    probable_root_cause :=
      if crit then "CRITICAL: " ++ e.domain ++ " issue: " ++ pyStrOpt e.alarm_type
      else e.domain ++ " issue: " ++ pyStrOpt e.alarm_type
    supporting_events := [e]
    confidence := if crit then 17/20 else 3/5
    explanation :=
      if crit then "CRITICAL ALERT: Single " ++ e.domain ++ " issue on " ++ pyStrOpt e.node_id
      else "Single " ++ e.domain ++ " issue on " ++ pyStrOpt e.node_id
    timestamp := e.timestamp
    is_critical := decide crit }

/-- `process_single_domain_incident` (app.py:476-532): update the first
stored incident matching the dedup test and stop; otherwise append a new
incident. -/
def process_single_domain_incident (e : CEvent) : List Incident → List Incident
  | [] => [newSingleDomainIncident e]
  | inc :: rest =>
    if sdiMatch e inc then updateIncident e inc :: rest
    else inc :: process_single_domain_incident e rest

/-- The single-domain routing of a pass (app.py:145-148): every event of a
node whose events span exactly one domain is handed to
`process_single_domain_incident`, in window order. -/
def singlesOf (window : List CEvent) (store : List Incident) : List Incident :=
  (nodeGrouped window).foldl
    (fun st p =>
      if 2 ≤ (dedupFirst (p.2.map (·.domain))).length then st
      else p.2.foldl (fun st' e => process_single_domain_incident e st') st)
    store

/-! ## The full correlation pass and ingestion -/

/-- `_process_for_correlation` (app.py:77-223), with `wnow` standing for
`time.time()`: evict the window, run maintenance on both incident stores,
group, route single-domain events, synthesize and upsert correlated
incidents. -/
def process_for_correlation (wnow : ℚ) (s : SysState) : SysState :=
  let window := evictWindow (wnow - CORRELATION_WINDOW_SECONDS) s.normalized_events
  { normalized_events := window
    incidents := corrStep wnow (groupedOf wnow window) s.incidents
    single_domain_incidents :=
      singlesOf window (incidentsMaintain wnow 100 s.single_domain_incidents) }

/-- The `/normalize` ingestion boundary (app.py:67-75): append the canonical
event, then run a full correlation pass. -/
def ingest (s : SysState) (wnow : ℚ) (e : CEvent) : SysState :=
  process_for_correlation wnow
    { s with normalized_events := s.normalized_events ++ [e] }

/-! ## Analytics (app.py:423-474) -/

/-- The analytics payload. -/
structure Analytics where
  vendor_counts : List (String × ℕ)
  type_counts : List (String × ℕ)
  total_incidents : ℕ
  network_health : String
deriving Repr, DecidableEq

/-- `counts[k] = counts.get(k, 0) + 1` on a dict in insertion order. -/
def bump (k : String) : List (String × ℕ) → List (String × ℕ)
  | [] => [(k, 1)]
  | (a, c) :: t => if a = k then (a, c + 1) :: t else (a, c) :: bump k t

/-- `get_analytics` (app.py:423-474).  Note the early return: when the
correlated collection is empty the rollup is skipped entirely, whatever the
single-domain collection holds. -/
def get_analytics (s : SysState) : Analytics :=
  if s.incidents = [] then
    { vendor_counts := [], type_counts := [], total_incidents := 0,
      network_health := "Unknown" }
  else
    let all := s.incidents ++ s.single_domain_incidents
    { vendor_counts :=
        all.foldl
          (fun m inc =>
            (dedupFirst (inc.supporting_events.map (·.vendor))).foldl
              (fun m' v => bump v m') m) []
      type_counts :=
        all.foldl
          (fun m inc =>
            (dedupFirst (inc.supporting_events.map (·.domain))).foldl
              (fun m' d => bump d m') m) []
      total_incidents := all.length
      network_health :=
        if all.length < 5 then "Healthy"
        else if all.length < 15 then "Warning" else "Critical" }

/-! ## Spec-side definitions

The following definitions are written from the specification's words (not
from the code); they exist to be compared against the code-derived
definitions above in the refinement claims. -/

/-- Confidence formula exactly as claim C1 states it, with the critical
test being the literal comparison `severity == "critical"`:
`min(0.99, 0.7 + 0.1*|events| + 0.05*|domains| + 0.1*severity_factor +
0.1*temporal_proximity + (0.3 if has_critical else 0))`, rounded to 2
decimal places. -/
def specConfidence (events : List CEvent) : ℚ :=
  let sf : ℚ :=
    ((events.map (fun e => if e.severity = "major" then (6:ℚ)/5 else 4/5)).sum) /
      (events.length : ℚ)
  let tp : ℚ :=
    1 - (listMax (events.map (·.timestamp)) - listMin (events.map (·.timestamp))) /
      CORRELATION_WINDOW_SECONDS
  round2 (min (99/100)
    (7/10 + (1/10) * (events.length : ℚ) +
      (5/100) * ((dedupFirst (events.map (·.domain))).length : ℚ) +
      (1/10) * sf + (1/10) * tp +
      (if ∃ e ∈ events, e.severity = "critical" then (3:ℚ)/10 else 0)))

/-- The amended C1 formula: identical to `specConfidence` except that the
critical test lowercases the severity first, as the code does. -/
def specConfidenceLower (events : List CEvent) : ℚ :=
  let sf : ℚ :=
    ((events.map (fun e => if e.severity = "major" then (6:ℚ)/5 else 4/5)).sum) /
      (events.length : ℚ)
  let tp : ℚ :=
    1 - (listMax (events.map (·.timestamp)) - listMin (events.map (·.timestamp))) /
      CORRELATION_WINDOW_SECONDS
  round2 (min (99/100)
    (7/10 + (1/10) * (events.length : ℚ) +
      (5/100) * ((dedupFirst (events.map (·.domain))).length : ℚ) +
      (1/10) * sf + (1/10) * tp +
      (if ∃ e ∈ events, pyLower e.severity = "critical" then (3:ℚ)/10 else 0)))

/-- Dict lookup with default 0, for reading the analytics count tables. -/
def lookupCount : List (String × ℕ) → String → ℕ
  | [], _ => 0
  | (a, c) :: t, k => if a = k then c else lookupCount t k

/-- Claim C3's vendor count: the number of incidents in the given list that
have vendor `v` among their supporting events (each vendor counted at most
once per incident). -/
def countVendor (v : String) : List Incident → ℕ
  | [] => 0
  | inc :: rest =>
    (if v ∈ inc.supporting_events.map (·.vendor) then 1 else 0) + countVendor v rest

/-- Claim C3's domain count, analogous to `countVendor`. -/
def countDomain (d : String) : List Incident → ℕ
  | [] => 0
  | inc :: rest =>
    (if d ∈ inc.supporting_events.map (·.domain) then 1 else 0) + countDomain d rest

/-- Claim C3's health classification of a total incident count. -/
def specHealth (total : ℕ) : String :=
  if total < 5 then "Healthy" else if total < 15 then "Warning" else "Critical"

/-! ## Concrete inputs used by counterexamples and witnesses -/

/-- Shorthand for a canonical event with named node and a fixed alarm. -/
def mkEv (ts : ℚ) (v d n sev : String) : CEvent :=
  ⟨ts, v, d, some n, some "a", sev, []⟩

/-- Fresh event at the front of the window (node id literally `"unknown"`
and a single domain, so no groups form). -/
def c2fresh : CEvent := ⟨100, "VendorA", "RAN", some "unknown", some "a", "minor", []⟩

/-- An event whose timestamp is far older than the cutoff, arriving after
`c2fresh`. -/
def c2stale : CEvent := ⟨0, "VendorB", "RAN", some "unknown", some "a", "minor", []⟩

/-- Severity `"Critical"` (capital C): the code's lowercased test treats it
as critical, the claim's literal test does not. -/
def c1e1 : CEvent := mkEv 300 "VendorA" "RAN" "N1" "Critical"

/-- A second event for the same node in another domain whose stale
timestamp survives eviction behind `c1e1`. -/
def c1e2 : CEvent := mkEv 0 "VendorB" "CORE" "N1" "minor"

/-- The state after ingesting `c1e1` at time 300 and `c1e2` at time 301. -/
def c1state : SysState := ingest (ingest ⟨[], [], []⟩ 300 c1e1) 301 c1e2

/-- A single-domain incident sitting in the single-domain store. -/
def c3inc : Incident :=
  { incident_id := "i1", vendor := "VendorA", domain := "RAN",
    node_id := some "N", is_correlated := false,
    probable_root_cause := "RAN issue: a",
    supporting_events := [mkEv 0 "VendorA" "RAN" "N" "minor"],
    confidence := 3/5, explanation := "e", timestamp := 0, is_critical := false }

/-- A correlated incident, used to make the correlated store nonempty. -/
def c3corr : Incident :=
  { incident_id := "i2", node_id := some "node-X",
    probable_root_cause := "End-to-end connectivity issue",
    supporting_events :=
      [mkEv 1 "VendorB" "CORE" "X" "minor", mkEv 1 "VendorA" "RAN" "X" "minor"],
    confidence := 99/100, explanation := "e", timestamp := 1, is_critical := false }

/-- The `i`-th of 60 valid groups with pairwise distinct keys and strictly
increasing timestamps. -/
def c5group (i : ℕ) : String × List CEvent :=
  ("c5k" ++ toString i,
    [mkEv (i : ℚ) "VendorA" "RAN" "N" "minor", mkEv (i : ℚ) "VendorB" "CORE" "N" "minor"])

/-- The correlated store after 60 passes, each synthesizing one incident
with a fresh key (pass `i` runs at time `i`). -/
def c5run : List Incident :=
  (List.range 60).foldl (fun st (i : ℕ) => corrStep (i : ℚ) [c5group i] st) []

/-- A 2-event, 2-domain group containing a critical event. -/
def c6crit : List CEvent :=
  [mkEv 0 "VendorA" "RAN" "N" "critical", mkEv 0 "VendorB" "CORE" "N" "minor"]

/-- The same group with the critical event downgraded to minor: identical
event count, domain count, severity factor and timestamps. -/
def c6non : List CEvent :=
  [mkEv 0 "VendorA" "RAN" "N" "minor", mkEv 0 "VendorB" "CORE" "N" "minor"]

/-- A group whose timestamps span 3000 seconds — far beyond the 30-second
correlation window. -/
def c7es : List CEvent :=
  [mkEv 0 "VendorA" "RAN" "N" "minor", mkEv 3000 "VendorB" "CORE" "N" "minor"]

/-- A stored non-critical single-domain incident. -/
def c10inc : Incident :=
  { incident_id := "INC-V-N3-0", vendor := "V", domain := "RAN",
    node_id := some "N3", is_correlated := false,
    probable_root_cause := "RAN issue: a",
    supporting_events := [mkEv 0 "V" "RAN" "N3" "minor"],
    confidence := 3/5, explanation := "e", timestamp := 0, is_critical := false }

/-- A critical-severity event for the same (vendor, node) pair 5 seconds
later. -/
def c10e : CEvent := mkEv 5 "V" "RAN" "N3" "critical"

/-! ## Shared helper lemmas -/

lemma round2_mono {a b : ℚ} (h : a ≤ b) : round2 a ≤ round2 b := by
  unfold round2
  have hr : round (a * 100) ≤ round (b * 100) := by
    rw [round_eq, round_eq]
    exact Int.floor_mono (by linarith)
  have : ((round (a * 100) : ℤ) : ℚ) ≤ ((round (b * 100) : ℤ) : ℚ) := by exact_mod_cast hr
  linarith

lemma min_min_self_right (c r : ℚ) : min (min c r) c = min c r := by
  rcases le_total c r with h | h
  · rw [min_eq_left h, min_self]
  · rw [min_eq_right h, min_eq_left h]

lemma round2_99 : round2 (99/100) = 99/100 := by with_unfolding_all decide

/-- The double `min(…, 0.99)` in the code collapses, so the stored
confidence is the claim-side single-`min` formula with the lowercased
critical test. -/
lemma confidenceOf_eq_specLower (events : List CEvent) :
    confidenceOf events = specConfidenceLower events := by
  unfold confidenceOf specConfidenceLower rawScore severityFactor temporalProximity
    CONFIDENCE_BASE hasCritical
  rw [min_min_self_right]

lemma sum_severity_ge (events : List CEvent) :
    (4/5 : ℚ) * events.length ≤
      ((events.map (fun e => if e.severity = "major" then (6:ℚ)/5 else 4/5)).sum) := by
  induction events with
  | nil => simp
  | cons e t ih =>
    simp only [List.map_cons, List.sum_cons, List.length_cons]
    push_cast
    split <;> linarith

lemma severityFactor_ge (events : List CEvent) (h : events ≠ []) :
    (4/5 : ℚ) ≤ severityFactor events := by
  unfold severityFactor
  have hl : (0:ℚ) < events.length := by
    have := List.length_pos.mpr h
    exact_mod_cast this
  rw [le_div_iff₀ hl]
  exact sum_severity_ge events

/-- The front-scan eviction loop is complete whenever the window is sorted
by timestamp (the near-sorted-arrival assumption). -/
lemma evictWindow_sorted (c : ℚ) :
    ∀ l : List CEvent, l.Pairwise (fun a b => a.timestamp ≤ b.timestamp) →
      ∀ x ∈ evictWindow c l, ¬ x.timestamp < c := by
  intro l
  induction l with
  | nil => intro _ x hx; simp [evictWindow] at hx
  | cons e rest ih =>
    intro hp x hx
    rw [List.pairwise_cons] at hp
    unfold evictWindow at hx
    by_cases he : e.timestamp < c
    · rw [if_pos he] at hx
      exact ih hp.2 x hx
    · rw [if_neg he] at hx
      rcases List.mem_cons.mp hx with rfl | hxr
      · exact he
      · have := hp.1 x hxr
        intro hlt
        exact he (by linarith)

open List in
lemma removeKey_sublist (key : String) : ∀ l : List Incident, removeKey key l <+ l := by
  intro l
  induction l with
  | nil => simp [removeKey]
  | cons i t ih =>
    unfold removeKey
    by_cases h : i.node_id ≠ some key
    · rw [if_pos h]; exact ih.cons₂ i
    · rw [if_neg h]; exact ih.cons i

lemma removeKey_not_mem (key : String) :
    ∀ l (i : Incident), i ∈ removeKey key l → i.node_id ≠ some key := by
  intro l
  induction l with
  | nil => intro i hi; simp [removeKey] at hi
  | cons j t ih =>
    intro i hi
    unfold removeKey at hi
    by_cases h : j.node_id ≠ some key
    · rw [if_pos h] at hi
      rcases List.mem_cons.mp hi with rfl | hir
      · exact h
      · exact ih i hir
    · rw [if_neg h] at hi
      exact ih i hi

open List in
lemma insertDesc_perm (x : Incident) : ∀ l, insertDesc x l ~ x :: l := by
  intro l
  induction l with
  | nil => simp [insertDesc]
  | cons y ys ih =>
    unfold insertDesc
    by_cases h : y.timestamp < x.timestamp
    · rw [if_pos h]
    · rw [if_neg h]
      exact (ih.cons y).trans (List.Perm.swap x y ys)

open List in
lemma sort_fold_perm : ∀ (l acc : List Incident),
    l.foldl (fun a x => insertDesc x a) acc ~ l ++ acc := by
  intro l
  induction l with
  | nil => intro acc; simp
  | cons x xs ih =>
    intro acc
    calc (x :: xs).foldl (fun a x => insertDesc x a) acc
        = xs.foldl (fun a x => insertDesc x a) (insertDesc x acc) := rfl
      _ ~ xs ++ insertDesc x acc := ih _
      _ ~ xs ++ x :: acc := List.Perm.append_left xs (insertDesc_perm x acc)
      _ ~ x :: (xs ++ acc) := List.perm_middle
      _ = (x :: xs) ++ acc := rfl

open List in
lemma sortByTsDesc_perm (l : List Incident) : sortByTsDesc l ~ l := by
  have := sort_fold_perm l []
  simpa [sortByTsDesc] using this

open List in
lemma evictIncidents_sublist (c : ℚ) : ∀ l : List Incident, evictIncidents c l <+ l := by
  intro l
  induction l with
  | nil => simp [evictIncidents]
  | cons i t ih =>
    unfold evictIncidents
    by_cases h : i.timestamp > c
    · rw [if_pos h]; exact ih.cons₂ i
    · rw [if_neg h]; exact ih.cons i

lemma nodup_keys_maintain (wnow : ℚ) (cap : ℕ) (l : List Incident)
    (h : (l.map (·.node_id)).Nodup) :
    ((incidentsMaintain wnow cap l).map (·.node_id)).Nodup := by
  unfold incidentsMaintain capIncidents
  set l' := evictIncidents (wnow - 2 * CORRELATION_WINDOW_SECONDS) l with hl'
  have h1 : (l'.map (·.node_id)).Nodup :=
    h.sublist ((evictIncidents_sublist _ l).map _)
  by_cases hc : cap < l'.length
  · rw [if_pos hc]
    have h2 : ((sortByTsDesc l').map (·.node_id)).Nodup :=
      (((sortByTsDesc_perm l').map _).nodup_iff).mpr h1
    exact h2.sublist (((sortByTsDesc l').take_sublist cap).map _)
  · rw [if_neg hc]
    exact h1

lemma synth_node_id {wnow : ℚ} {key : String} {events : List CEvent} {inc : Incident}
    (h : synthIncident wnow key events = some inc) : inc.node_id = some key := by
  unfold synthIncident at h
  by_cases hg : 2 ≤ events.length ∧ 2 ≤ (dedupFirst (events.map (·.domain))).length
  · rw [if_pos hg] at h
    rw [← Option.some.inj h]
  · rw [if_neg hg] at h
    exact absurd h (by simp)

lemma nodup_keys_insert (wnow : ℚ) (st : List Incident) (p : String × List CEvent)
    (h : (st.map (·.node_id)).Nodup) :
    ((insertCorrelated wnow st p).map (·.node_id)).Nodup := by
  unfold insertCorrelated
  rcases hs : synthIncident wnow p.1 p.2 with _ | inc
  · exact h
  · simp only [List.map_append, List.map_cons, List.map_nil]
    rw [List.nodup_append]
    refine ⟨h.sublist ((removeKey_sublist p.1 st).map _), List.nodup_singleton _, ?_⟩
    intro a ha hb
    rcases List.mem_map.mp ha with ⟨i, hi, rfl⟩
    rcases List.mem_singleton.mp hb with h'
    rw [synth_node_id hs] at h'
    exact removeKey_not_mem p.1 st i hi h'

lemma nodup_keys_fold (wnow : ℚ) : ∀ (news : List (String × List CEvent)) (st : List Incident),
    (st.map (·.node_id)).Nodup →
    ((news.foldl (insertCorrelated wnow) st).map (·.node_id)).Nodup := by
  intro news
  induction news with
  | nil => intro st h; exact h
  | cons p t ih => intro st h; exact ih _ (nodup_keys_insert wnow st p h)

lemma nodup_keys_corrStep (wnow : ℚ) (news : List (String × List CEvent))
    (store : List Incident) (h : (store.map (·.node_id)).Nodup) :
    ((corrStep wnow news store).map (·.node_id)).Nodup :=
  nodup_keys_fold wnow news _ (nodup_keys_maintain wnow 50 store h)

lemma lookupCount_bump (k k' : String) :
    ∀ m, lookupCount (bump k m) k' =
      (if k' = k then 1 else 0) + lookupCount m k' := by
  intro m
  induction m with
  | nil =>
    simp only [bump, lookupCount]
    split_ifs
    all_goals simp_all [lookupCount]
  | cons e t ih =>
    rcases e with ⟨a, c⟩
    simp only [bump, lookupCount]
    split_ifs
    all_goals simp_all [lookupCount]
    all_goals omega

lemma lookupCount_fold_bump (k : String) :
    ∀ (ds : List String) (m), ds.Nodup →
      lookupCount (ds.foldl (fun m' v => bump v m') m) k =
        (if k ∈ ds then 1 else 0) + lookupCount m k := by
  intro ds
  induction ds with
  | nil => intro m _; simp
  | cons v t ih =>
    intro m hnd
    rw [List.nodup_cons] at hnd
    have hstep : (v :: t).foldl (fun m' v => bump v m') m =
        t.foldl (fun m' v => bump v m') (bump v m) := rfl
    rw [hstep, ih _ hnd.2, lookupCount_bump]
    by_cases hk : k = v
    · subst hk
      rw [if_pos rfl, if_neg hnd.1, if_pos (List.mem_cons_self k t)]
      omega
    · rw [if_neg hk]
      by_cases hkt : k ∈ t
      · rw [if_pos hkt, if_pos (List.mem_cons_of_mem v hkt)]
        omega
      · rw [if_neg hkt, if_neg (by simp [hk, hkt])]
        omega

lemma mem_dedupFirst_fold (x : String) :
    ∀ (l acc : List String),
      (x ∈ l.foldl (fun acc d => if d ∈ acc then acc else acc ++ [d]) acc ↔
        x ∈ acc ∨ x ∈ l) := by
  intro l
  induction l with
  | nil => intro acc; simp
  | cons d t ih =>
    intro acc
    have hstep : (d :: t).foldl (fun acc d => if d ∈ acc then acc else acc ++ [d]) acc =
        t.foldl (fun acc d => if d ∈ acc then acc else acc ++ [d])
          (if d ∈ acc then acc else acc ++ [d]) := rfl
    rw [hstep, ih]
    by_cases hd : d ∈ acc
    · rw [if_pos hd]
      constructor
      · rintro (h | h)
        · exact Or.inl h
        · exact Or.inr (List.mem_cons_of_mem d h)
      · rintro (h | h)
        · exact Or.inl h
        · rcases List.mem_cons.mp h with rfl | h'
          · exact Or.inl hd
          · exact Or.inr h'
    · rw [if_neg hd]
      simp only [List.mem_append, List.mem_singleton, List.mem_cons]
      tauto

lemma nodup_dedupFirst_fold :
    ∀ (l acc : List String), acc.Nodup →
      (l.foldl (fun acc d => if d ∈ acc then acc else acc ++ [d]) acc).Nodup := by
  intro l
  induction l with
  | nil => intro acc h; exact h
  | cons d t ih =>
    intro acc h
    have hstep : (d :: t).foldl (fun acc d => if d ∈ acc then acc else acc ++ [d]) acc =
        t.foldl (fun acc d => if d ∈ acc then acc else acc ++ [d])
          (if d ∈ acc then acc else acc ++ [d]) := rfl
    rw [hstep]
    apply ih
    by_cases hd : d ∈ acc
    · rw [if_pos hd]; exact h
    · rw [if_neg hd]
      simp [List.nodup_append, h, hd]

lemma dedupFirst_nodup (l : List String) : (dedupFirst l).Nodup :=
  nodup_dedupFirst_fold l [] List.nodup_nil

lemma mem_dedupFirst (x : String) (l : List String) : x ∈ dedupFirst l ↔ x ∈ l := by
  unfold dedupFirst
  rw [mem_dedupFirst_fold]
  simp

lemma analytics_vendor_fold (v : String) :
    ∀ (all : List Incident) (m),
      lookupCount
        (all.foldl
          (fun m inc =>
            (dedupFirst (inc.supporting_events.map (·.vendor))).foldl
              (fun m' x => bump x m') m) m) v =
        countVendor v all + lookupCount m v := by
  intro all
  induction all with
  | nil => intro m; simp [countVendor]
  | cons inc rest ih =>
    intro m
    have hstep : ((inc :: rest).foldl
        (fun m inc =>
          (dedupFirst (inc.supporting_events.map (·.vendor))).foldl
            (fun m' x => bump x m') m) m) =
        (rest.foldl
          (fun m inc =>
            (dedupFirst (inc.supporting_events.map (·.vendor))).foldl
              (fun m' x => bump x m') m)
          ((dedupFirst (inc.supporting_events.map (·.vendor))).foldl
            (fun m' x => bump x m') m)) := rfl
    rw [hstep, ih, lookupCount_fold_bump v _ _ (dedupFirst_nodup _)]
    simp only [mem_dedupFirst, countVendor]
    split_ifs <;> omega

lemma analytics_domain_fold (d : String) :
    ∀ (all : List Incident) (m),
      lookupCount
        (all.foldl
          (fun m inc =>
            (dedupFirst (inc.supporting_events.map (·.domain))).foldl
              (fun m' x => bump x m') m) m) d =
        countDomain d all + lookupCount m d := by
  intro all
  induction all with
  | nil => intro m; simp [countDomain]
  | cons inc rest ih =>
    intro m
    have hstep : ((inc :: rest).foldl
        (fun m inc =>
          (dedupFirst (inc.supporting_events.map (·.domain))).foldl
            (fun m' x => bump x m') m) m) =
        (rest.foldl
          (fun m inc =>
            (dedupFirst (inc.supporting_events.map (·.domain))).foldl
              (fun m' x => bump x m') m)
          ((dedupFirst (inc.supporting_events.map (·.domain))).foldl
            (fun m' x => bump x m') m)) := rfl
    rw [hstep, ih, lookupCount_fold_bump d _ _ (dedupFirst_nodup _)]
    simp only [mem_dedupFirst, countDomain]
    split_ifs <;> omega

/-! ## Claim C1 — stored confidence vs. the spec formula -/

/-- C1, counterexample: after ingesting a fresh event with severity
`"Critical"` (capital C) and then an event with a stale timestamp for the
same node (which the front-scan eviction keeps, so the group's span exceeds
the window and the score is not capped), the stored confidence is 0.48,
while the claim's formula — whose critical test is the literal string
`"critical"` — yields 0.18 on the very group the incident records. -/
theorem c1_counterexample :
    (c1state.incidents.map (fun i => (i.node_id, i.supporting_events, i.confidence))) =
      [(some "node-N1", [c1e1, c1e2], 12/25), (some "cross-domain-1", [c1e1, c1e2], 12/25)] ∧
    specConfidence [c1e1, c1e2] = 9/50 ∧ ((12:ℚ)/25 ≠ (9:ℚ)/50) := by
  with_unfolding_all decide

/-- C1, amended: for every group synthesized into a correlated incident,
the stored confidence equals
`min(0.99, 0.7 + 0.1*|events| + 0.05*|domains| + 0.1*severity_factor +
0.1*temporal_proximity + (0.3 if some event's severity LOWERCASES to
"critical" else 0))`, rounded to 2 decimal places. -/
theorem c1_amended (wnow : ℚ) (key : String) (events : List CEvent) (inc : Incident)
    (h : synthIncident wnow key events = some inc) :
    inc.confidence = specConfidenceLower events := by
  unfold synthIncident at h
  by_cases hg : 2 ≤ events.length ∧ 2 ≤ (dedupFirst (events.map (·.domain))).length
  · rw [if_pos hg] at h
    rw [← Option.some.inj h]
    exact confidenceOf_eq_specLower events
  · rw [if_neg hg] at h
    exact absurd h (by simp)

/-- C1, witness: `c1_amended` applied to a concrete two-event group. -/
theorem c1_amended_witness :
    ((synthIncident 0 "w1" c6non).map (·.confidence)).getD 0 =
      specConfidenceLower c6non := by
  obtain ⟨inc, hinc⟩ :=
    Option.isSome_iff_exists.mp
      (by with_unfolding_all decide : (synthIncident 0 "w1" c6non).isSome)
  rw [hinc]
  simpa using c1_amended 0 "w1" c6non inc hinc

/-! ## Claim C2 — window invariant after a pass -/

/-- C2, counterexample: the window holds a fresh event at the front; an
event whose timestamp (0) is far older than the cutoff (70) is ingested at
time 100.  The front-scan eviction stops at the fresh front event and the
stale event is retained, violating the claimed invariant. -/
theorem c2_counterexample :
    (ingest ⟨[c2fresh], [], []⟩ 100 c2stale).normalized_events = [c2fresh, c2stale] ∧
    c2stale.timestamp < 100 - CORRELATION_WINDOW_SECONDS := by
  with_unfolding_all decide

/-- C2, amended: after a correlation pass, no retained event has
`timestamp < now - correlationWindowSeconds`, PROVIDED the window (with the
newly appended event) is sorted by nondecreasing timestamp — the
near-sorted-arrival assumption; an out-of-order stale event sitting behind
a newer front event is retained. -/
theorem c2_amended (s : SysState) (wnow : ℚ) (e : CEvent)
    (hsort : (s.normalized_events ++ [e]).Pairwise (fun a b => a.timestamp ≤ b.timestamp)) :
    ∀ x ∈ (ingest s wnow e).normalized_events,
      ¬ x.timestamp < wnow - CORRELATION_WINDOW_SECONDS := by
  intro x hx
  exact evictWindow_sorted _ _ hsort x hx

/-- C2, witness: `c2_amended` on a singleton window. -/
theorem c2_amended_witness :
    ¬ (mkEv 5 "VendorA" "RAN" "N" "minor").timestamp < 5 - CORRELATION_WINDOW_SECONDS :=
  c2_amended ⟨[], [], []⟩ 5 (mkEv 5 "VendorA" "RAN" "N" "minor") (by simp)
    (mkEv 5 "VendorA" "RAN" "N" "minor")
    (by with_unfolding_all decide)

/-! ## Claim C3 — analytics rollup over the union of the stores -/

/-- C3, counterexample: with the correlated collection empty and one
single-domain incident present, the code's early return reports health
`"Unknown"`, total 0 and no vendor counts, whereas the claim demands the
union rollup (total 1, health `"Healthy"`, VendorA counted once). -/
theorem c3_counterexample :
    (get_analytics ⟨[], [], [c3inc]⟩).network_health = "Unknown" ∧
    (get_analytics ⟨[], [], [c3inc]⟩).total_incidents = 0 ∧
    (get_analytics ⟨[], [], [c3inc]⟩).vendor_counts = [] ∧
    specHealth (([] : List Incident) ++ [c3inc]).length = "Healthy" ∧
    countVendor "VendorA" (([] : List Incident) ++ [c3inc]) = 1 ∧
    ("Unknown" : String) ≠ "Healthy" := by
  with_unfolding_all decide

/-- C3, amended: WHENEVER the correlated collection is nonempty, the
analytics rollup counts each distinct vendor and domain over the union of
the two collections (at most once per incident) and classifies health by
the union's size (`< 5` Healthy, `< 15` Warning, else Critical); when the
correlated collection is empty the endpoint instead returns empty counts
and health "Unknown" regardless of single-domain incidents. -/
theorem c3_amended (s : SysState) (h : s.incidents ≠ []) (v d : String) :
    lookupCount (get_analytics s).vendor_counts v =
      countVendor v (s.incidents ++ s.single_domain_incidents) ∧
    lookupCount (get_analytics s).type_counts d =
      countDomain d (s.incidents ++ s.single_domain_incidents) ∧
    (get_analytics s).total_incidents =
      (s.incidents ++ s.single_domain_incidents).length ∧
    (get_analytics s).network_health =
      specHealth (s.incidents ++ s.single_domain_incidents).length := by
  unfold get_analytics
  rw [if_neg h]
  refine ⟨?_, ?_, rfl, rfl⟩
  · rw [analytics_vendor_fold]
    simp [lookupCount]
  · rw [analytics_domain_fold]
    simp [lookupCount]

/-- C3, witness: `c3_amended` on a store with one correlated and one
single-domain incident. -/
theorem c3_amended_witness :
    lookupCount (get_analytics ⟨[], [c3corr], [c3inc]⟩).vendor_counts "VendorA" =
      countVendor "VendorA" ([c3corr] ++ [c3inc]) ∧
    lookupCount (get_analytics ⟨[], [c3corr], [c3inc]⟩).type_counts "RAN" =
      countDomain "RAN" ([c3corr] ++ [c3inc]) ∧
    (get_analytics ⟨[], [c3corr], [c3inc]⟩).total_incidents =
      ([c3corr] ++ [c3inc]).length ∧
    (get_analytics ⟨[], [c3corr], [c3inc]⟩).network_health =
      specHealth ([c3corr] ++ [c3inc]).length :=
  c3_amended ⟨[], [c3corr], [c3inc]⟩ (by simp) "VendorA" "RAN"

/-! ## Claim C4 — mapper totality and defaults -/

/-- C4, counterexample: a VendorA payload with every optional field absent
maps to severity `"major"` — not the claimed default `"minor"` — and to a
null node id rather than `"unknown"`. -/
theorem c4_counterexample :
    (map_to_canonical 0 { vendor := some "VendorA" }).severity ≠ "minor" ∧
    (map_to_canonical 0 { vendor := some "VendorA" }).node_id ≠ some "unknown" := by
  with_unfolding_all decide

/-- C4, amended: the mapper is a total function; for any vendor OTHER than
VendorA/B/C, missing fields degrade to the claimed defaults (domain
"UNKNOWN", node_id "unknown", severity "minor", timestamp = current time);
the vendor-specific mappings default the timestamp to the current time but
default severity to "major" (VendorA) or "minor" (VendorB, VendorC) and
leave missing node/alarm fields null. -/
theorem c4_amended (wnow : ℚ) (v : String)
    (hA : v ≠ "VendorA") (hB : v ≠ "VendorB") (hC : v ≠ "VendorC") :
    map_to_canonical wnow { vendor := some v } =
      ⟨wnow, v, "UNKNOWN", some "unknown", some "unknown", "minor", []⟩ ∧
    map_to_canonical wnow { vendor := some "VendorA" } =
      ⟨wnow, "VendorA", "RAN", none, none, "major", []⟩ ∧
    map_to_canonical wnow { vendor := some "VendorB" } =
      ⟨wnow, "VendorB", "CORE", none, none, "minor", []⟩ ∧
    map_to_canonical wnow { vendor := some "VendorC" } =
      ⟨wnow, "VendorC", "TRANSPORT", none, none, "minor", []⟩ := by
  refine ⟨?_, ?_, ?_, ?_⟩ <;>
    simp [map_to_canonical, pyOrStr, hA, hB, hC]

/-- C4, witness: `c4_amended` at time 0 with the unknown vendor `"X"`. -/
theorem c4_amended_witness :
    map_to_canonical 0 { vendor := some "X" } =
      ⟨0, "X", "UNKNOWN", some "unknown", some "unknown", "minor", []⟩ ∧
    map_to_canonical 0 { vendor := some "VendorA" } =
      ⟨0, "VendorA", "RAN", none, none, "major", []⟩ ∧
    map_to_canonical 0 { vendor := some "VendorB" } =
      ⟨0, "VendorB", "CORE", none, none, "minor", []⟩ ∧
    map_to_canonical 0 { vendor := some "VendorC" } =
      ⟨0, "VendorC", "TRANSPORT", none, none, "minor", []⟩ :=
  c4_amended 0 "X" (by decide) (by decide) (by decide)

/-! ## Claim C5 — retention cap -/

set_option maxRecDepth 1000000 in
/-- C5, counterexample: sixty store passes, each synthesizing one incident
with a fresh key and a fresh timestamp, leave 51 incidents in the
correlated store — not the claimed 50 — because the cap is enforced at the
START of a pass, before that pass's insert. -/
theorem c5_counterexample : c5run.length = 51 ∧ c5run.length ≠ 50 := by
  with_unfolding_all decide

set_option maxRecDepth 1000000 in
/-- C5, amended: inserting 60 correlated incidents with distinct keys and
increasing timestamps leaves exactly 51 incidents in the store (the cap to
50 only takes effect at the start of the NEXT pass), and the 9 oldest by
timestamp are evicted: the retained timestamps are 58, 57, …, 9 followed by
the final insert 59, i.e. exactly the keys of incidents 9 through 59. -/
theorem c5_amended :
    c5run.length = 51 ∧
    c5run.map (·.timestamp) =
      ((List.range 50).map (fun j => ((58 - j : ℤ) : ℚ))) ++ [59] ∧
    c5run.map (·.node_id) =
      ((List.range 50).map (fun j => some ("c5k" ++ toString (58 - j)))) ++
        [some "c5k59"] := by
  with_unfolding_all decide

/-! ## Claim C6 — the 0.3 critical boost -/

/-- C6, counterexample: two otherwise-identical 2-event, 2-domain groups —
same event count, domain count, severity factor and timestamps — one with a
critical event and one without, BOTH score confidence 0.99, because the
non-critical raw score already exceeds the 0.99 cap; the critical group's
confidence is not 0.3 higher. -/
theorem c6_counterexample :
    hasCritical c6crit ∧ ¬ hasCritical c6non ∧
    c6crit.length = c6non.length ∧
    (dedupFirst (c6crit.map (·.domain))).length =
      (dedupFirst (c6non.map (·.domain))).length ∧
    severityFactor c6crit = severityFactor c6non ∧
    c6crit.map (·.timestamp) = c6non.map (·.timestamp) ∧
    confidenceOf c6crit = 99/100 ∧ confidenceOf c6non = 99/100 ∧
    ¬ (confidenceOf c6non + 3/10 ≤ confidenceOf c6crit) := by
  with_unfolding_all decide

/-- C6, amended: for two otherwise-identical groups (same event count,
domain count, severity factor and timestamps) where one has a critical
event and the other none, the critical group's RAW score is exactly 0.3
higher and its stored confidence is at least as high; the 0.99 cap can
shrink the stored difference to 0. -/
theorem c6_amended (es1 es2 : List CEvent)
    (hlen : es1.length = es2.length)
    (hdom : (dedupFirst (es1.map (·.domain))).length =
      (dedupFirst (es2.map (·.domain))).length)
    (hsev : severityFactor es1 = severityFactor es2)
    (hts : es1.map (·.timestamp) = es2.map (·.timestamp))
    (h1 : hasCritical es1) (h2 : ¬ hasCritical es2) :
    confidenceOf es2 ≤ confidenceOf es1 ∧ rawScore es1 = rawScore es2 + 3/10 := by
  have htp : temporalProximity es1 = temporalProximity es2 := by
    unfold temporalProximity
    rw [hts]
  have hraw : rawScore es1 = rawScore es2 + 3/10 := by
    unfold rawScore
    rw [if_pos h1, if_neg h2, hlen, hdom, hsev, htp]
    ring
  refine ⟨?_, hraw⟩
  apply round2_mono
  exact min_le_min (min_le_min le_rfl (by linarith)) le_rfl

/-- C6, witness: `c6_amended` on the concrete critical/non-critical pair. -/
theorem c6_amended_witness :
    confidenceOf c6non ≤ confidenceOf c6crit ∧
    rawScore c6crit = rawScore c6non + 3/10 :=
  c6_amended c6crit c6non (by with_unfolding_all decide)
    (by with_unfolding_all decide) (by with_unfolding_all decide)
    (by with_unfolding_all decide) (by with_unfolding_all decide)
    (by with_unfolding_all decide)

/-! ## Claim C7 — confidence bounds -/

/-- C7, counterexample: a group whose timestamps span 3000 seconds passes
the synthesis guard, and the stored confidence is −8.82 — the claim's lower
bound `0 ≤ confidence` fails precisely in the over-window-span case the
claim covers. -/
theorem c7_counterexample :
    (synthIncident 3000 "k" c7es).map (·.confidence) = some (-441/50) ∧
    ((-441 : ℚ)/50 < 0) := by
  with_unfolding_all decide

/-- C7, amended: every synthesized correlated incident has
`confidence ≤ 0.99`; and whenever the group's timestamp span is at most the
correlation window (so temporal_proximity is nonnegative),
`0 ≤ confidence` also holds.  A span exceeding the window can drive the
unclamped score negative. -/
theorem c7_amended (wnow : ℚ) (key : String) (events : List CEvent) (inc : Incident)
    (h : synthIncident wnow key events = some inc) :
    inc.confidence ≤ 99/100 ∧
      (listMax (events.map (·.timestamp)) - listMin (events.map (·.timestamp)) ≤
          CORRELATION_WINDOW_SECONDS → 0 ≤ inc.confidence) := by
  unfold synthIncident at h
  by_cases hg : 2 ≤ events.length ∧
      2 ≤ (dedupFirst (events.map (·.domain))).length
  · rw [if_pos hg] at h
    have hinc := (Option.some.inj h).symm
    subst hinc
    simp only
    constructor
    · have h1 : min (min (99/100) (rawScore events)) (99/100) ≤ 99/100 :=
        min_le_right _ _
      calc confidenceOf events ≤ round2 (99/100) := round2_mono h1
        _ = 99/100 := round2_99
    · intro hspan
      have hne : events ≠ [] := by
        intro he
        rw [he] at hg
        simp at hg
      have hsf := severityFactor_ge events hne
      have htp : 0 ≤ temporalProximity events := by
        unfold CORRELATION_WINDOW_SECONDS at hspan
        unfold temporalProximity CORRELATION_WINDOW_SECONDS
        have := (div_le_one (by norm_num : (0:ℚ) < 30)).mpr hspan
        linarith
      have hcrit : (0:ℚ) ≤ if hasCritical events then (3:ℚ)/10 else 0 := by
        split <;> norm_num
      have hlen : (2:ℚ) ≤ events.length := by exact_mod_cast hg.1
      have hdlen : (2:ℚ) ≤ (dedupFirst (events.map (·.domain))).length := by
        exact_mod_cast hg.2
      have hraw : (99:ℚ)/100 ≤ rawScore events := by
        unfold rawScore CONFIDENCE_BASE
        linarith
      have hconf : confidenceOf events = 99/100 := by
        unfold confidenceOf
        rw [min_eq_left hraw, min_self, round2_99]
      rw [hconf]
      norm_num
  · rw [if_neg hg] at h
    exact absurd h (by simp)

/-- C7, witness: `c7_amended` on a concrete in-window group. -/
theorem c7_amended_witness :
    ((synthIncident 0 "w7" c6non).map (·.confidence)).getD 0 ≤ 99/100 ∧
    (0:ℚ) ≤ ((synthIncident 0 "w7" c6non).map (·.confidence)).getD 0 := by
  obtain ⟨inc, hinc⟩ :=
    Option.isSome_iff_exists.mp
      (by with_unfolding_all decide : (synthIncident 0 "w7" c6non).isSome)
  have h := c7_amended 0 "w7" c6non inc hinc
  rw [hinc]
  exact ⟨by simpa using h.1, by simpa using h.2 (by with_unfolding_all decide)⟩

/-! ## Claim C8 — single-domain dedup idempotence -/

/-- C8: for any vendor `v`, node `n ≠ "unknown"`, single domain `d` and any
severities/alarms, ingesting two events for `(v, n)` five seconds apart
(times 0 and 5) from an empty state leaves exactly one single-domain
incident for the pair, whose supporting_events holds only the latest event;
no correlated incident is produced. -/
theorem c8_dedup (v n d a1 a2 sev1 sev2 : String) (m1 m2 : List (String × ℚ))
    (hn : n ≠ "unknown") :
    ((ingest (ingest ⟨[], [], []⟩ 0 ⟨0, v, d, some n, some a1, sev1, m1⟩) 5
        ⟨5, v, d, some n, some a2, sev2, m2⟩).single_domain_incidents.map
      (fun i => (i.vendor, i.node_id, i.supporting_events)) =
      [(v, some n, [⟨5, v, d, some n, some a2, sev2, m2⟩])]) ∧
    (ingest (ingest ⟨[], [], []⟩ 0 ⟨0, v, d, some n, some a1, sev1, m1⟩) 5
        ⟨5, v, d, some n, some a2, sev2, m2⟩).incidents = [] := by
  norm_num [ingest, process_for_correlation, evictWindow, groupedOf, nodeGrouped,
    domainsGrouped, multiInsert, upsert, dedupFirst, corrStep, incidentsMaintain,
    evictIncidents, capIncidents, singlesOf, process_single_domain_incident,
    sdiMatch, updateIncident, newSingleDomainIncident, CORRELATION_WINDOW_SECONDS,
    hn, insertCorrelated, synthIncident, nodeReps, crossReps, filterDomain, mostRecent1]

/-- C8, witness: the spec's own scenario — vendor `V`, node `N3`, domain
RAN, the second event critical. -/
theorem c8_dedup_witness :
    ((ingest (ingest ⟨[], [], []⟩ 0 ⟨0, "V", "RAN", some "N3", some "a1", "minor", []⟩) 5
        ⟨5, "V", "RAN", some "N3", some "a2", "critical", []⟩).single_domain_incidents.map
      (fun i => (i.vendor, i.node_id, i.supporting_events)) =
      [("V", some "N3", [⟨5, "V", "RAN", some "N3", some "a2", "critical", []⟩])]) ∧
    (ingest (ingest ⟨[], [], []⟩ 0 ⟨0, "V", "RAN", some "N3", some "a1", "minor", []⟩) 5
        ⟨5, "V", "RAN", some "N3", some "a2", "critical", []⟩).incidents = [] :=
  c8_dedup "V" "N3" "RAN" "a1" "a2" "minor" "critical" [] [] (by decide)

/-! ## Claim C9 — at most one correlated incident per group key -/

/-- C9: in every state reachable from the empty state by any sequence of
ingested events (at any pass times), the correlated incident store holds
pairwise-distinct group keys — synthesis removes the stored incident with
the same key before inserting, and eviction, sorting and truncation
preserve key uniqueness. -/
theorem c9_unique_group_key (inputs : List (ℚ × CEvent)) :
    (((inputs.foldl (fun s p => ingest s p.1 p.2) ⟨[], [], []⟩).incidents).map
      (·.node_id)).Nodup := by
  suffices h : ∀ (inputs : List (ℚ × CEvent)) (s : SysState),
      ((s.incidents.map (·.node_id)).Nodup) →
      (((inputs.foldl (fun s p => ingest s p.1 p.2) s).incidents).map (·.node_id)).Nodup by
    exact h inputs ⟨[], [], []⟩ (by simp)
  intro inputs
  induction inputs with
  | nil => intro s h; exact h
  | cons p t ih =>
    intro s h
    exact ih _ (nodup_keys_corrStep p.1 _ s.incidents h)

/-! ## Claim C10 — dedup update is frame-limited -/

/-- C10: when the single-domain deduplicator finds a stored incident for
the same (vendor, node) within the 60-second horizon — with no earlier
match in the store — it rewrites exactly supporting_events, timestamp and
explanation; confidence, is_critical, probable_root_cause and incident_id
keep their prior values (the event's severity, critical or not, plays no
role in the update branch). -/
theorem c10_frame (e : CEvent) (p q : List Incident) (inc : Incident)
    (hp : ∀ i ∈ p, ¬ sdiMatch e i) (hm : sdiMatch e inc) :
    process_single_domain_incident e (p ++ inc :: q) =
      p ++ updateIncident e inc :: q ∧
    (updateIncident e inc).confidence = inc.confidence ∧
    (updateIncident e inc).is_critical = inc.is_critical ∧
    (updateIncident e inc).probable_root_cause = inc.probable_root_cause ∧
    (updateIncident e inc).incident_id = inc.incident_id ∧
    (updateIncident e inc).supporting_events = [e] ∧
    (updateIncident e inc).timestamp = e.timestamp := by
  refine ⟨?_, rfl, rfl, rfl, rfl, rfl, rfl⟩
  induction p with
  | nil => simp [process_single_domain_incident, if_pos hm]
  | cons i t ih =>
    have hi : ¬ sdiMatch e i := hp i (List.mem_cons_self i t)
    simp only [List.cons_append, process_single_domain_incident, if_neg hi,
      List.append_eq]
    rw [ih (fun j hj => hp j (List.mem_cons_of_mem i hj))]

/-- C10, witness: `c10_frame` with a critical event updating a stored
non-critical incident. -/
theorem c10_frame_witness :
    process_single_domain_incident c10e ([] ++ c10inc :: []) =
      [] ++ updateIncident c10e c10inc :: [] ∧
    (updateIncident c10e c10inc).confidence = c10inc.confidence ∧
    (updateIncident c10e c10inc).is_critical = c10inc.is_critical ∧
    (updateIncident c10e c10inc).probable_root_cause = c10inc.probable_root_cause ∧
    (updateIncident c10e c10inc).incident_id = c10inc.incident_id ∧
    (updateIncident c10e c10inc).supporting_events = [c10e] ∧
    (updateIncident c10e c10inc).timestamp = c10e.timestamp :=
  c10_frame c10e [] [] c10inc (by simp) (by with_unfolding_all decide)

end VisionHack
